import Mathlib

/-!
Shallow embedding of `src/io/sys/unix/net/unix_stream_connect.rs`:
the non-blocking unix-stream connect state machine (`UnixStreamConnect`
with `new`, `is_connected`, `done`) and its `EventSource::subscribe`
implementation.

The OS, the selector and the scheduler are external collaborators; their
interactions are recorded as explicit action traces, and their responses
(syscall results, readiness-flag deliveries, cancellation signals) are
supplied as environment inputs.  The atomic readiness flag `io_flag` of
the registration record is threaded explicitly through each step.
-/

/-- Errno classification relevant to the connect protocol, as matched by the
source (`libc::EINPROGRESS`, `libc::EALREADY`, `libc::EISCONN`); `other`
stands for every other raw OS error code. -/
inductive Errno
  | EINPROGRESS
  | EALREADY
  | EISCONN
  | other (code : Nat)
deriving DecidableEq, Repr

/-- Result of one OS `connect` syscall. -/
inductive ConnRes
  | ok
  | err (e : Errno)
deriving DecidableEq, Repr

/-- The readiness registration record (`IoData`): the atomic readiness flag
`io_flag` and the atomic waiting-task slot `co` (task handles are opaque
numbers). -/
structure IoData where
  io_flag : Bool
  co : Option Nat
deriving DecidableEq, Repr

/-- The connect object: registration record, socket handle, destination
address (both opaque), and the completion marker `is_connected`.
(The `can_drop : DelayDrop` guard is external state; its `reset` and
`delay_drop` calls are recorded in the action traces.) -/
structure UnixStreamConnect where
  io_data : IoData
  stream : Nat
  path : Nat
  is_connected : Bool
deriving DecidableEq, Repr

/-- `UnixStreamConnect::is_connected` (the immediate attempt): issues the OS
connect call once; `res` is that syscall's result.  On synchronous success
the marker is set and `true` is returned; on `EINPROGRESS` the object is
unchanged and `false` is returned; any other error is propagated. -/
def is_connected (c : UnixStreamConnect) (res : ConnRes) :
    Except Errno (UnixStreamConnect × Bool) :=
  match res with
  | .ok => .ok ({ c with is_connected := true }, true)
  | .err Errno.EINPROGRESS => .ok (c, false)
  | .err e => .error e

/-- Observable actions of `done` (the completion loop), in program order:
the `co_io_result` check, the relaxed store clearing `io_flag`, the
re-issued connect syscall, the atomic swap of `io_flag` to `false`
(recording the previous value), the `can_drop.reset`, and the
`yield_with` suspension. -/
inductive DoneAction
  | checkCancel
  | clearFlag
  | connectCall
  | swapFlag (prev : Bool)
  | resetGuard
  | yieldAct
deriving DecidableEq, Repr

/-- Environment inputs for one iteration of the completion loop:
`cancel` is the error delivered by `co_io_result` (an externally-signaled
error/cancellation from a prior wakeup, if any); `conn` is the result of
the re-issued connect syscall; `evBeforeSwap` records whether the
event-delivery thread set `io_flag` between the clear and the swap. -/
structure IterEnv where
  cancel : Option Nat
  conn : ConnRes
  evBeforeSwap : Bool
deriving DecidableEq, Repr

/-- Error channel of `done`: an externally-signaled cancellation error, or a
fatal connect errno. -/
inductive DoneErr
  | canceled (e : Nat)
  | os (e : Errno)
deriving DecidableEq, Repr

/-- Control outcome of one loop iteration: return success, return an error,
loop back to the top immediately (`continue`), or suspend via
`yield_with`. -/
inductive IterOut
  | retOk
  | retErr (e : DoneErr)
  | retry
  | suspend
deriving DecidableEq, Repr

/-- One iteration of the completion loop of `done`, from `co_io_result()?`
up to (but not including) the `reset`/`yield_with` pair: returns the
control outcome, the value of `io_flag` when the iteration's last step
ran, and the actions performed.  `flag0` is `io_flag` on entry (erased by
the clear except on the early cancellation return). -/
def doneIter (flag0 : Bool) (env : IterEnv) : IterOut × Bool × List DoneAction :=
  match env.cancel with
  | some e => (.retErr (.canceled e), flag0, [.checkCancel])
  | none =>
    match env.conn with
    | .ok =>
        (.retOk, env.evBeforeSwap, [.checkCancel, .clearFlag, .connectCall])
    | .err .EINPROGRESS | .err .EALREADY =>
        if env.evBeforeSwap then
          (.retry, false, [.checkCancel, .clearFlag, .connectCall, .swapFlag true])
        else
          (.suspend, false, [.checkCancel, .clearFlag, .connectCall, .swapFlag false])
    | .err .EISCONN =>
        (.retOk, env.evBeforeSwap, [.checkCancel, .clearFlag, .connectCall])
    | .err (.other code) =>
        (.retErr (.os (.other code)), env.evBeforeSwap,
         [.checkCancel, .clearFlag, .connectCall])

/-- Result of `done`: success (the stream is produced), error, or `pending`
when the supplied environment trace ran out while the loop was still
going (the loop itself has no iteration bound). -/
inductive DoneRes
  | ok
  | err (e : DoneErr)
  | pending
deriving DecidableEq, Repr

/-- The completion loop of `done`, driven by one `IterEnv` per iteration:
returns the result, the final `io_flag` value, and the full action trace.
A `suspend` outcome performs `can_drop.reset` and `yield_with` and then
re-enters the loop after resumption. -/
def doneLoop : List IterEnv → Bool → DoneRes × Bool × List DoneAction
  | [], flag => (.pending, flag, [])
  | env :: rest, flag =>
    match doneIter flag env with
    | (out, flag1, acts) =>
      match out with
      | .retOk => (.ok, flag1, acts)
      | .retErr e => (.err e, flag1, acts)
      | .retry =>
        match doneLoop rest flag1 with
        | (r, f2, acts2) => (r, f2, acts ++ acts2)
      | .suspend =>
        match doneLoop rest flag1 with
        | (r, f2, acts2) => (r, f2, acts ++ [.resetGuard, .yieldAct] ++ acts2)

/-- `UnixStreamConnect::done`: if the immediate attempt already connected,
return the stream at once; otherwise run the completion loop. -/
def done (c : UnixStreamConnect) (envs : List IterEnv) :
    DoneRes × Bool × List DoneAction :=
  if c.is_connected then (.ok, c.io_data.io_flag, [])
  else doneLoop envs c.io_data.io_flag

/-- Socket domain, as passed to `Socket::new` by `new`. -/
inductive SockDomain
  | unix
deriving DecidableEq, Repr

/-- Socket type, as passed to `Socket::new` by `new`. -/
inductive SockType
  | stream
deriving DecidableEq, Repr

/-- Observable actions of `UnixStreamConnect::new`, in program order:
`SockAddr::unix(path)`, `Socket::new(domain, type)`,
`set_nonblocking(true)`, `add_socket` (registration with the selector). -/
inductive NewAction
  | sockAddrUnix
  | socketNew (d : SockDomain) (t : SockType)
  | setNonblocking
  | addSocketCall
deriving DecidableEq, Repr

/-- Environment inputs for `new`: the result of each fallible collaborator
call (error codes and handles are opaque numbers; `register` yields the
fresh registration record). -/
structure NewEnv where
  addr : Except Nat Nat
  sock : Except Nat Nat
  nonblocking : Except Nat Unit
  register : Except Nat IoData

/-- `UnixStreamConnect::new`: builds the address, creates a stream-type
unix-domain socket, switches it to non-blocking mode, registers it with
the selector, and wraps the result; each `?` propagates the step's error.
Returns the result together with the trace of performed actions. -/
def new (env : NewEnv) : Except Nat UnixStreamConnect × List NewAction :=
  match env.addr with
  | .error e => (.error e, [.sockAddrUnix])
  | .ok path =>
    match env.sock with
    | .error e => (.error e, [.sockAddrUnix, .socketNew .unix .stream])
    | .ok socket =>
      match env.nonblocking with
      | .error e =>
          (.error e,
           [.sockAddrUnix, .socketNew .unix .stream, .setNonblocking])
      | .ok _ =>
        match env.register with
        | .error e =>
            (.error e,
             [.sockAddrUnix, .socketNew .unix .stream, .setNonblocking,
              .addSocketCall])
        | .ok io =>
            (.ok { io_data := io, stream := socket, path := path,
                   is_connected := false },
             [.sockAddrUnix, .socketNew .unix .stream, .setNonblocking,
              .addSocketCall])

/-- Observable actions of `EventSource::subscribe`, in program order:
acquiring the `can_drop.delay_drop()` token, reading `co_cancel_data`,
arming the selector timeout, the `Release` swap storing the task into the
waiting-task slot, rescheduling the task (`io_data.schedule()`), storing
the cancellation back-reference (`cancel.set_io`), reading
`cancel.is_canceled()`, and triggering `cancel.cancel()`. -/
inductive SubAction
  | delayDropToken
  | readCancelData
  | addIoTimerSecs (secs : Nat)
  | swapCoSlot
  | scheduleTask
  | setCancelIoData
  | readCanceledFlag
  | cancelTriggered
deriving DecidableEq, Repr

/-- `EventSource::subscribe` for `UnixStreamConnect`: arms a 10-second
selector timeout on the registration, swaps the task into the
waiting-task slot, and either reschedules immediately (readiness flag
already set) or installs the cancellation back-reference and re-checks
the canceled status.  `canceled` is the value `cancel.is_canceled()`
would return at the re-check.  Returns the updated registration record
and the action trace. -/
def subscribe (io : IoData) (task : Nat) (canceled : Bool) :
    IoData × List SubAction :=
  let io1 : IoData := { io with co := some task }
  if io1.io_flag then
    (io1, [.delayDropToken, .readCancelData, .addIoTimerSecs 10, .swapCoSlot,
           .scheduleTask])
  else if canceled then
    (io1, [.delayDropToken, .readCancelData, .addIoTimerSecs 10, .swapCoSlot,
           .setCancelIoData, .readCanceledFlag, .cancelTriggered])
  else
    (io1, [.delayDropToken, .readCancelData, .addIoTimerSecs 10, .swapCoSlot,
           .setCancelIoData, .readCanceledFlag])

/-- `true` iff every `yieldAct` in the trace is immediately preceded by a
`resetGuard` (a fresh delay-drop period covers every suspension). -/
def guardedYields : List DoneAction → Bool
  | [] => true
  | DoneAction.resetGuard :: DoneAction.yieldAct :: rest => guardedYields rest
  | DoneAction.yieldAct :: _ => false
  | _ :: rest => guardedYields rest

example :
    doneIter false ⟨none, .err .EINPROGRESS, true⟩ =
      (.retry, false, [.checkCancel, .clearFlag, .connectCall, .swapFlag true]) := by
  decide

example :
    (doneLoop [⟨none, .err .EINPROGRESS, false⟩, ⟨none, .err .EISCONN, false⟩] false).1 =
      DoneRes.ok := by
  decide

example :
    guardedYields
      (doneLoop [⟨none, .err .EINPROGRESS, false⟩, ⟨none, .err .EISCONN, false⟩]
        false).2.2 = true := by
  decide

example :
    (subscribe ⟨true, some 3⟩ 7 false).2 =
      [.delayDropToken, .readCancelData, .addIoTimerSecs 10, .swapCoSlot,
       .scheduleTask] := by
  decide

/-- C1: in the completion loop of `done`, on every non-exiting iteration the
readiness flag is atomically swapped to `false` after the re-issued connect
call; whenever the swap's previous value was `true` the loop retries
immediately from the top, and the iteration suspends only when that previous
value was `false`, with the readiness flag `false` at the suspension point
(the task is never parked while the flag is set). -/
theorem done_loop_swap_recheck (flag0 : Bool) (env : IterEnv)
    (hc : env.cancel = none)
    (hp : env.conn = ConnRes.err Errno.EINPROGRESS ∨
      env.conn = ConnRes.err Errno.EALREADY) :
    (doneIter flag0 env).2.2 =
      [DoneAction.checkCancel, DoneAction.clearFlag, DoneAction.connectCall,
       DoneAction.swapFlag env.evBeforeSwap]
    ∧ (env.evBeforeSwap = true → (doneIter flag0 env).1 = IterOut.retry)
    ∧ ((doneIter flag0 env).1 = IterOut.suspend →
        env.evBeforeSwap = false ∧ (doneIter flag0 env).2.1 = false) := by
  rcases hp with hp | hp <;>
    cases hev : env.evBeforeSwap <;>
      simp [doneIter, hc, hp, hev]

/-- Witness for C1's theorem: with an event delivered between the clear and
the swap, the EINPROGRESS iteration retries instead of suspending. -/
theorem done_loop_swap_recheck_witness :
    (doneIter false ⟨none, ConnRes.err Errno.EINPROGRESS, true⟩).1 =
      IterOut.retry :=
  (done_loop_swap_recheck false ⟨none, ConnRes.err Errno.EINPROGRESS, true⟩
    rfl (Or.inl rfl)).2.1 rfl

/-- After any number of iterations whose re-issued connect reports
EINPROGRESS (each suspending), an iteration reporting EISCONN completes the
loop with success. -/
theorem doneLoop_inprogress_then_isconn (n : Nat) (flag : Bool) :
    (doneLoop (List.replicate n ⟨none, ConnRes.err Errno.EINPROGRESS, false⟩ ++
      [⟨none, ConnRes.err Errno.EISCONN, false⟩]) flag).1 = DoneRes.ok := by
  induction n generalizing flag with
  | zero => simp [doneLoop, doneIter]
  | succ n ih => simp [List.replicate_succ, doneLoop, doneIter, ih]

/-- C2: on every iteration of the completion loop the errno of the re-issued
connect is classified in exactly three ways: EINPROGRESS/EALREADY fall
through toward suspension (retry or suspend), EISCONN exits the loop with
success, and every other errno exits the loop as a fatal error, with no
retry; and EISCONN on any retry yields success regardless of how many prior
EINPROGRESS iterations occurred. -/
theorem done_errno_classification (flag0 : Bool) (env : IterEnv)
    (hc : env.cancel = none) :
    ((env.conn = ConnRes.err Errno.EINPROGRESS ∨
        env.conn = ConnRes.err Errno.EALREADY) →
      (doneIter flag0 env).1 = IterOut.retry ∨
        (doneIter flag0 env).1 = IterOut.suspend)
    ∧ (env.conn = ConnRes.err Errno.EISCONN →
        (doneIter flag0 env).1 = IterOut.retOk)
    ∧ (env.conn = ConnRes.ok → (doneIter flag0 env).1 = IterOut.retOk)
    ∧ (∀ code, env.conn = ConnRes.err (Errno.other code) →
        (doneIter flag0 env).1 = IterOut.retErr (DoneErr.os (Errno.other code)))
    ∧ (∀ n, (doneLoop
        (List.replicate n ⟨none, ConnRes.err Errno.EINPROGRESS, false⟩ ++
          [⟨none, ConnRes.err Errno.EISCONN, false⟩]) flag0).1 = DoneRes.ok) := by
  refine ⟨?_, ?_, ?_, ?_, ?_⟩
  · rintro (hp | hp) <;> cases hev : env.evBeforeSwap <;>
      simp [doneIter, hc, hp, hev]
  · intro hp; simp [doneIter, hc, hp]
  · intro hp; simp [doneIter, hc, hp]
  · intro code hp; simp [doneIter, hc, hp]
  · intro n; exact doneLoop_inprogress_then_isconn n flag0

/-- Witness for C2's theorem: an EISCONN retry after three EINPROGRESS
iterations completes `done` with success. -/
theorem done_errno_classification_witness :
    (doneLoop (List.replicate 3 ⟨none, ConnRes.err Errno.EINPROGRESS, false⟩ ++
      [⟨none, ConnRes.err Errno.EISCONN, false⟩]) false).1 = DoneRes.ok :=
  (done_errno_classification false ⟨none, ConnRes.err Errno.EISCONN, false⟩
    rfl).2.2.2.2 3

/-- C3: `is_connected` (the immediate attempt) has exactly three outcomes:
synchronous success sets the connected marker and returns `true`; the
EINPROGRESS errno returns `false` with the object (and its marker)
unchanged; any other error is returned as-is, producing no object and
leaving the marker unset. -/
theorem attempt_immediate_three_outcomes (c : UnixStreamConnect)
    (res : ConnRes) :
    (res = ConnRes.ok →
        is_connected c res = Except.ok ({ c with is_connected := true }, true))
    ∧ (res = ConnRes.err Errno.EINPROGRESS →
        is_connected c res = Except.ok (c, false))
    ∧ (∀ e, res = ConnRes.err e → e ≠ Errno.EINPROGRESS →
        is_connected c res = Except.error e) := by
  refine ⟨?_, ?_, ?_⟩
  · rintro rfl; rfl
  · rintro rfl; rfl
  · rintro e rfl he
    cases e <;> simp_all [is_connected]

/-- Witness for C3's theorem: synchronous success on a fresh object sets the
marker and reports done. -/
theorem attempt_immediate_three_outcomes_witness :
    is_connected ⟨⟨false, none⟩, 0, 0, false⟩ ConnRes.ok =
      Except.ok (⟨⟨false, none⟩, 0, 0, true⟩, true) :=
  (attempt_immediate_three_outcomes ⟨⟨false, none⟩, 0, 0, false⟩ ConnRes.ok).1
    rfl

/-- C4: `subscribe` arms a selector timeout fixed at 10 seconds on the
registration record, stores the task handle into the waiting-task slot
replacing any prior occupant, and then re-checks the readiness flag: if it
is already set, the trace is exactly timer-arm, slot-swap, then an immediate
hand-back of the task to the scheduler, with nothing further installed
(`subscribe` is a total function of its inputs: it never blocks). -/
theorem subscribe_timer_slot_recheck (io : IoData) (task : Nat)
    (canceled : Bool) :
    (subscribe io task canceled).1.co = some task
    ∧ SubAction.addIoTimerSecs 10 ∈ (subscribe io task canceled).2
    ∧ (io.io_flag = true →
        (subscribe io task canceled).2 =
          [SubAction.delayDropToken, SubAction.readCancelData,
           SubAction.addIoTimerSecs 10, SubAction.swapCoSlot,
           SubAction.scheduleTask]) := by
  cases hf : io.io_flag <;> cases canceled <;> simp [subscribe, hf]

/-- Witness for C4's theorem: with the readiness flag already set and a prior
occupant in the slot, subscribe swaps the task in and reschedules it. -/
theorem subscribe_timer_slot_recheck_witness :
    (subscribe ⟨true, some 5⟩ 7 false).2 =
      [SubAction.delayDropToken, SubAction.readCancelData,
       SubAction.addIoTimerSecs 10, SubAction.swapCoSlot,
       SubAction.scheduleTask] :=
  (subscribe_timer_slot_recheck ⟨true, some 5⟩ 7 false).2.2 rfl

/-- C5: a cancellation or externally-signaled error is never silently lost
while waiting: every iteration of the completion loop begins with the
`co_io_result` check and, when an error is present, fails at once with that
error and performs nothing else; and `subscribe`, on the parked path, stores
the cancellation back-reference and then re-checks the canceled status,
triggering the cancellation immediately when it is set. -/
theorem cancellation_never_lost (flag0 : Bool) (env : IterEnv) (io : IoData)
    (task : Nat) :
    ((doneIter flag0 env).2.2).head? = some DoneAction.checkCancel
    ∧ (∀ e, env.cancel = some e →
        (doneIter flag0 env).1 = IterOut.retErr (DoneErr.canceled e)
        ∧ (doneIter flag0 env).2.2 = [DoneAction.checkCancel])
    ∧ (io.io_flag = false →
        (subscribe io task true).2 =
          [SubAction.delayDropToken, SubAction.readCancelData,
           SubAction.addIoTimerSecs 10, SubAction.swapCoSlot,
           SubAction.setCancelIoData, SubAction.readCanceledFlag,
           SubAction.cancelTriggered]) := by
  refine ⟨?_, ?_, ?_⟩
  · rcases env with ⟨cancel, conn, ev⟩
    rcases conn with _ | e
    · cases cancel <;> simp [doneIter]
    · cases cancel <;> cases e <;> cases ev <;> simp [doneIter]
  · intro e hc; simp [doneIter, hc]
  · intro hf; simp [subscribe, hf]

/-- Witness for C5's theorem: an externally-signaled error 42 makes the loop
iteration fail immediately with that error. -/
theorem cancellation_never_lost_witness :
    (doneIter false ⟨some 42, ConnRes.ok, false⟩).1 =
      IterOut.retErr (DoneErr.canceled 42) :=
  ((cancellation_never_lost false ⟨some 42, ConnRes.ok, false⟩
    ⟨false, none⟩ 1).2.1 42 rfl).1

/-- C6: if the immediate attempt already connected, `done` returns success
at once: the completion loop is never entered, no connect syscall is issued,
and the task never suspends (the action trace is empty). -/
theorem done_connected_fast_path (c : UnixStreamConnect) (envs : List IterEnv)
    (h : c.is_connected = true) :
    (done c envs).1 = DoneRes.ok
    ∧ (done c envs).2.2 = []
    ∧ DoneAction.connectCall ∉ (done c envs).2.2
    ∧ DoneAction.yieldAct ∉ (done c envs).2.2 := by
  simp [done, h]

/-- Witness for C6's theorem: a connected object finishes with success and
no actions. -/
theorem done_connected_fast_path_witness :
    (done ⟨⟨false, none⟩, 0, 0, true⟩ []).1 = DoneRes.ok :=
  (done_connected_fast_path ⟨⟨false, none⟩, 0, 0, true⟩ [] rfl).1

/-- C7: `new` creates a stream-type unix-domain socket, switches it to
non-blocking mode strictly before it is registered (whenever registration is
reached, the trace is address, socket creation, non-blocking switch,
registration, in that order), propagates the error of a failing socket
creation, mode switch or registration without producing an object, and on
success yields the wrapped object with the marker unset. -/
theorem new_order_and_errors (env : NewEnv) :
    (∀ d t, NewAction.socketNew d t ∈ (new env).2 →
        d = SockDomain.unix ∧ t = SockType.stream)
    ∧ (NewAction.addSocketCall ∈ (new env).2 →
        (new env).2 = [NewAction.sockAddrUnix,
          NewAction.socketNew SockDomain.unix SockType.stream,
          NewAction.setNonblocking, NewAction.addSocketCall])
    ∧ (∀ p e, env.addr = Except.ok p → env.sock = Except.error e →
        (new env).1 = Except.error e)
    ∧ (∀ p s e, env.addr = Except.ok p → env.sock = Except.ok s →
        env.nonblocking = Except.error e → (new env).1 = Except.error e)
    ∧ (∀ p s e, env.addr = Except.ok p → env.sock = Except.ok s →
        env.nonblocking = Except.ok () → env.register = Except.error e →
        (new env).1 = Except.error e)
    ∧ (∀ p s io, env.addr = Except.ok p → env.sock = Except.ok s →
        env.nonblocking = Except.ok () → env.register = Except.ok io →
        (new env).1 = Except.ok
          { io_data := io, stream := s, path := p, is_connected := false }) := by
  rcases env with ⟨addr, sock, nb, reg⟩
  rcases addr with e1 | p <;> rcases sock with e2 | s <;>
    rcases nb with e3 | ⟨⟩ <;> rcases reg with e4 | io <;>
      refine ⟨?_, ?_, ?_, ?_, ?_, ?_⟩ <;> simp [new]

/-- Witness for C7's theorem: with every collaborator call succeeding, `new`
produces the wrapped, not-yet-connected object. -/
theorem new_order_and_errors_witness :
    (new ⟨Except.ok 1, Except.ok 2, Except.ok (),
        Except.ok ⟨false, none⟩⟩).1 =
      Except.ok ⟨⟨false, none⟩, 2, 1, false⟩ :=
  (new_order_and_errors ⟨Except.ok 1, Except.ok 2, Except.ok (),
    Except.ok ⟨false, none⟩⟩).2.2.2.2.2 1 2 ⟨false, none⟩ rfl rfl rfl rfl

/-- C8: the delay-drop guard invariant holds on every parking path: in any
run of the completion loop, every `yield_with` suspension is immediately
preceded by a `can_drop.reset`, and `subscribe` acquires its delay-drop
token as its very first action. -/
theorem delay_drop_guard_kept (flag : Bool) (envs : List IterEnv)
    (io : IoData) (task : Nat) (canceled : Bool) :
    guardedYields (doneLoop envs flag).2.2 = true
    ∧ ((subscribe io task canceled).2).head? =
        some SubAction.delayDropToken := by
  constructor
  · induction envs generalizing flag with
    | nil => simp [doneLoop, guardedYields]
    | cons env rest ih =>
      rcases env with ⟨cancel, conn, ev⟩
      rcases conn with _ | e
      · cases cancel <;> simp [doneLoop, doneIter, guardedYields, ih]
      · cases cancel <;> cases e <;> cases ev <;>
          simp [doneLoop, doneIter, guardedYields, ih]
  · cases hf : io.io_flag <;> cases canceled <;> simp [subscribe, hf]

/-- C9: when the connected marker is already set, `done` returns success
without performing the externally-signaled error/cancellation check: even
with a cancellation queued in the environment, the result is success and no
`co_io_result` check appears in the trace. -/
theorem done_connected_skips_cancel_check (c : UnixStreamConnect)
    (envs : List IterEnv) (h : c.is_connected = true) :
    (done c envs).1 = DoneRes.ok
    ∧ DoneAction.checkCancel ∉ (done c envs).2.2 := by
  simp [done, h]

/-- Witness for C9's theorem: a connected object finishes successfully even
though the first loop environment holds a pending cancellation. -/
theorem done_connected_skips_cancel_check_witness :
    (done ⟨⟨false, none⟩, 0, 0, true⟩ [⟨some 7, ConnRes.ok, false⟩]).1 =
      DoneRes.ok :=
  (done_connected_skips_cancel_check ⟨⟨false, none⟩, 0, 0, true⟩
    [⟨some 7, ConnRes.ok, false⟩] rfl).1

/-- C10: when `subscribe` finds the readiness flag already set, it returns
immediately after rescheduling the task and leaves the cancellation slot
untouched: the back-reference is not installed, the canceled status is not
read, and no cancellation is triggered in that cycle. -/
theorem subscribe_ready_frame (io : IoData) (task : Nat) (canceled : Bool)
    (h : io.io_flag = true) :
    (subscribe io task canceled).2 =
      [SubAction.delayDropToken, SubAction.readCancelData,
       SubAction.addIoTimerSecs 10, SubAction.swapCoSlot,
       SubAction.scheduleTask]
    ∧ SubAction.setCancelIoData ∉ (subscribe io task canceled).2
    ∧ SubAction.readCanceledFlag ∉ (subscribe io task canceled).2
    ∧ SubAction.cancelTriggered ∉ (subscribe io task canceled).2 := by
  simp [subscribe, h]

/-- Witness for C10's theorem: with the flag set and the task already marked
canceled, subscribe still only reschedules and installs nothing. -/
theorem subscribe_ready_frame_witness :
    (subscribe ⟨true, none⟩ 9 true).2 =
      [SubAction.delayDropToken, SubAction.readCancelData,
       SubAction.addIoTimerSecs 10, SubAction.swapCoSlot,
       SubAction.scheduleTask] :=
  (subscribe_ready_frame ⟨true, none⟩ 9 true rfl).1
